import Mathlib

/-
Verification of the core logic of the humanEvaluation TTS rating
application: a shallow embedding of the sampler, recorder and
aggregation code (src/database.py, src/pairwise.py, src/mos_eval.py,
src/dashboard.py) together with the PostgreSQL schema constraints of
src/create_db.py.  SQL timestamps are modelled as plain naturals, SQL
REAL score columns as rationals, and the nondeterminism of
ORDER BY RANDOM() as an explicit list order or permutation hypothesis.
-/

namespace HumanEval

/-- A row of the `samples` table (create_db.py lines 47-59); the fields the
core logic reads: primary key, owning model, source text, audio locator and
the denormalized `vote_count` counter (DEFAULT 0).  `speaker_id`,
`language`, `is_ground_truth` and `created_at` take no part in any claim
and are omitted. -/
structure SampleRow where
  sample_id : Nat
  model_id : Nat
  text : String
  audio_url : String
  vote_count : Nat
deriving DecidableEq, Repr

/-- A row of the `models` table (create_db.py lines 24-31). -/
structure ModelRec where
  model_id : Nat
  model_name : String
deriving DecidableEq, Repr

/-- A row of the `mos_ratings` table (create_db.py lines 77-90): six score
columns, each `REAL` and nullable, hence `Option ℚ`. -/
structure MosRatingRow where
  rating_id : Nat
  sample_id : Nat
  user_id : Nat
  naturalness : Option ℚ
  intelligibility : Option ℚ
  pronunciation : Option ℚ
  prosody : Option ℚ
  speaker_similarity : Option ℚ
  overall_rating : Option ℚ
  created_at : Nat
deriving DecidableEq, Repr

/-- A row of the `ab_tests` table (create_db.py lines 93-104). -/
structure AbTestRow where
  test_id : Nat
  sample_a_id : Nat
  sample_b_id : Nat
  user_id : Nat
  selected_sample : String
  selection_reason : String
  test_duration : Nat
  created_at : Nat
deriving DecidableEq, Repr

/-- The attribute-score dictionary passed to `add_mos_rating`
(database.py line 195): `ratings.get(..)` yields `None` for an absent
key, hence every field is an `Option ℚ`. -/
structure MosScores where
  naturalness : Option ℚ
  intelligibility : Option ℚ
  pronunciation : Option ℚ
  prosody : Option ℚ
  speaker_similarity : Option ℚ
  overall_rating : Option ℚ
deriving DecidableEq, Repr

/-- The database state touched by the recorder functions: the three tables
and the next SERIAL primary-key values. -/
structure DbState where
  samples : List SampleRow
  mos_ratings : List MosRatingRow
  ab_tests : List AbTestRow
  next_rating_id : Nat
  next_test_id : Nat
deriving DecidableEq, Repr

/-- Outcome of an INSERT executed through `execute_query`
(database.py lines 14-41).  `ok id` is the `RETURNING` row.
`checkViolation` models a psycopg2 CheckViolation raised by a schema
CHECK constraint: `execute_query` has no exception handler, so the error
propagates to the caller as a raised exception, not as a return value.
`validationFailed` is the application-level pre-write rejection that the
specification describes; no code path in the repository produces it: it
is declared here only so that the specified behaviour can be stated and
compared against the code's behaviour. -/
inductive InsertResult where
  | ok (id : Nat)
  | checkViolation
  | validationFailed
deriving DecidableEq, Repr

/-- The per-column CHECK of `mos_ratings` (create_db.py lines 82-87):
`CHECK (col >= 1 AND col <= 5)`.  Under SQL three-valued logic a NULL
operand makes the CHECK pass, so `none` is accepted. -/
def score_ok : Option ℚ → Bool
  | none => true
  | some v => decide (1 ≤ v ∧ v ≤ 5)

/-- Conjunction of the six CHECK constraints of the `mos_ratings` table. -/
def mos_row_check (r : MosScores) : Bool :=
  score_ok r.naturalness && score_ok r.intelligibility && score_ok r.pronunciation &&
    score_ok r.prosody && score_ok r.speaker_similarity && score_ok r.overall_rating

/-- `add_mos_rating` (database.py lines 195-218): builds the INSERT row
from the dictionary and submits it; the function itself performs no
validation, so the only rejection point is the schema CHECK. -/
def add_mos_rating (st : DbState) (sample_id user_id : Nat) (ratings : MosScores)
    (now : Nat) : DbState × InsertResult :=
  if mos_row_check ratings then
    ({ st with
        mos_ratings := st.mos_ratings ++
          [⟨st.next_rating_id, sample_id, user_id, ratings.naturalness,
            ratings.intelligibility, ratings.pronunciation, ratings.prosody,
            ratings.speaker_similarity, ratings.overall_rating, now⟩],
        next_rating_id := st.next_rating_id + 1 },
      InsertResult.ok st.next_rating_id)
  else (st, InsertResult.checkViolation)

/-- The CHECK of `ab_tests.selected_sample` (create_db.py line 99):
`selected_sample IN ('A', 'B', 'tie')`. -/
def ab_selected_check (s : String) : Bool :=
  decide (s = "A") || decide (s = "B") || decide (s = "tie")

/-- `add_ab_rating` (database.py lines 220-238): one INSERT into
`ab_tests` with `test_duration` hard-coded to the literal `0`
(line 236); nothing else in the database is touched. -/
def add_ab_rating (st : DbState) (sample_a_id sample_b_id user_id : Nat)
    (selected reason : String) (now : Nat) : DbState × InsertResult :=
  if ab_selected_check selected then
    ({ st with
        ab_tests := st.ab_tests ++
          [⟨st.next_test_id, sample_a_id, sample_b_id, user_id, selected,
            reason, 0, now⟩],
        next_test_id := st.next_test_id + 1 },
      InsertResult.ok st.next_test_id)
  else (st, InsertResult.checkViolation)

/-- The displayed-to-stored verdict mapping of
`handle_ab_rating_submission` (pairwise.py lines 182-194): when the
pair's positions were swapped the displayed choice is reversed before
persisting; anything other than "A" or "B" is stored as "tie". -/
def map_selection (swap_position : Bool) (selected : String) : String :=
  if swap_position then
    if selected = "A" then "B" else if selected = "B" then "A" else "tie"
  else
    if selected = "A" then "A" else if selected = "B" then "B" else "tie"

/-- `handle_ab_rating_submission` (pairwise.py lines 182-204): maps the
displayed selection through `map_selection` and saves it with
`add_ab_rating`. -/
def handle_ab_rating_submission (st : DbState) (sample_a_id sample_b_id user_id : Nat)
    (selected reason : String) (swap_position : Bool) (now : Nat) : DbState × InsertResult :=
  add_ab_rating st sample_a_id sample_b_id user_id
    (map_selection swap_position selected) reason now

/-- Insertion of one element into a list sorted by the boolean
comparison `le`; building block for `sortLe`. -/
def insertLe {α : Type} (le : α → α → Bool) (a : α) : List α → List α
  | [] => [a]
  | b :: t => if le a b then a :: b :: t else b :: insertLe le a t

/-- Insertion sort by the boolean comparison `le`.  Models a SQL
`ORDER BY key, RANDOM()`: elements are ordered by `le` and the
nondeterministic tie-break is represented by the order of the input
list. -/
def sortLe {α : Type} (le : α → α → Bool) (l : List α) : List α :=
  l.foldr (insertLe le) []

/-- The `COUNT(r.rating_id)` of the LEFT JOIN in
`get_multiple_random_samples` (database.py lines 158-162): the number of
`mos_ratings` rows referencing the sample. -/
def ratingCount (ratings : List MosRatingRow) (s : SampleRow) : Nat :=
  (ratings.filter (fun r => r.sample_id == s.sample_id)).length

/-- Comparison by rating count, the `ORDER BY COUNT(r.rating_id)` key. -/
def mosLe (ratings : List MosRatingRow) (x y : SampleRow) : Bool :=
  decide (ratingCount ratings x ≤ ratingCount ratings y)

/-- The `WHERE s.sample_id NOT IN (...)` filter of
`get_multiple_random_samples` (database.py lines 168-171); an empty
exclusion list adds no WHERE clause, which filters nothing, exactly as
the filter with an empty list does. -/
def mosCandidates (samples : List SampleRow) (exclude_ids : List Nat) : List SampleRow :=
  samples.filter (fun s => !(decide (s.sample_id ∈ exclude_ids)))

/-- The `model_samples` CTE restricted by `rn <= max_per_model`
(database.py lines 155-179): per model partition, `ROW_NUMBER()` ranks
candidates ascending by rating count with random tie-break, and only the
first `max_per_model` rows of each partition survive. -/
def mosKept (samples : List SampleRow) (ratings : List MosRatingRow)
    (max_per_model : Nat) (exclude_ids : List Nat) : List SampleRow :=
  let cands := mosCandidates samples exclude_ids
  ((cands.map (fun s => s.model_id)).dedup).flatMap
    (fun m => (sortLe (mosLe ratings) (cands.filter (fun s => s.model_id == m))).take max_per_model)

/-- `get_multiple_random_samples` (database.py lines 147-187): the kept
per-model candidates are pooled, ordered by rating count (random
tie-break) and truncated to `count` by the final
`ORDER BY rating_count, RANDOM() LIMIT count`. -/
def get_multiple_random_samples (samples : List SampleRow) (ratings : List MosRatingRow)
    (count max_per_model : Nat) (exclude_ids : List Nat) : List SampleRow :=
  (sortLe (mosLe ratings) (mosKept samples ratings max_per_model exclude_ids)).take count

/-- A row produced by the pair query of `get_ab_test_sample_pairs`
(database.py lines 106-115): the SELECT list of the self-join. -/
structure PairRow where
  sample_a_id : Nat
  sample_b_id : Nat
  text : String
  audio_a_url : String
  audio_b_url : String
  model_a_name : String
  model_b_name : String
deriving DecidableEq, Repr

/-- The optional `AND m1.model_name = %s` filter (database.py
lines 120-122). -/
def model_a_filter (model_a : Option String) (m1 : ModelRec) : Bool :=
  match model_a with
  | none => true
  | some nm => m1.model_name == nm

/-- The universe of candidate rows of the pair query (database.py
lines 106-122) before `ORDER BY RANDOM() LIMIT`: samples self-joined on
equal text and distinct sample ids, joined to `models` on the two model
ids, restricted to distinct models and optionally to a fixed model A. -/
def abPairUniverse (samples : List SampleRow) (models : List ModelRec)
    (model_a : Option String) : List PairRow :=
  samples.flatMap fun s1 =>
    samples.flatMap fun s2 =>
      models.flatMap fun m1 =>
        models.filterMap fun m2 =>
          if s1.text = s2.text ∧ s1.sample_id ≠ s2.sample_id ∧
              s1.model_id = m1.model_id ∧ s2.model_id = m2.model_id ∧
              s1.model_id ≠ s2.model_id ∧ model_a_filter model_a m1 = true then
            some ⟨s1.sample_id, s2.sample_id, s1.text, s1.audio_url, s2.audio_url,
              m1.model_name, m2.model_name⟩
          else none

/-- The exclusion predicate of `get_ab_test_sample_pairs` (database.py
lines 130-137): a fetched pair is dropped when it matches an
already-rated pair in either orientation. -/
def pair_excluded (p : PairRow) (exclude_pairs : List (Nat × Nat)) : Bool :=
  exclude_pairs.any fun ex =>
    decide ((p.sample_a_id, p.sample_b_id) = ex) ||
      decide ((p.sample_b_id, p.sample_a_id) = ex)

/-- `get_ab_test_sample_pairs` (database.py lines 98-140) downstream of
the SQL query: `fetched` is the query result in its random order; the
code keeps the first `count * 2` rows (`LIMIT %s` with `count * 2`,
lines 124-125), filters out excluded pairs (lines 130-137) and returns
the first `count` survivors (line 140). -/
def get_ab_test_sample_pairs (fetched : List PairRow) (count : Nat)
    (exclude_pairs : List (Nat × Nat)) : List PairRow :=
  (((fetched.take (count * 2))).filter (fun p => !(pair_excluded p exclude_pairs))).take count

/-- The tie percentage of `show_ab_results_simplified` (dashboard.py
line 172): `(ties / total) * 100 if total > 0 else 0`. -/
def tieRatioOf (ties total : Nat) : ℚ :=
  if 0 < total then ((ties : ℚ) / (total : ℚ)) * 100 else 0

/-- The note of dashboard.py line 231 (its interpolated percentage is
elided; only the note's presence matters to the claims). -/
def highTieNoteText : String :=
  "\n\n**Note:** High tie rate suggests the two models may be similar in quality"

/-- dashboard.py lines 230-231: the note is appended to the conclusion
exactly when the tie percentage exceeds 30. -/
def appendTieNote (conclusion : String) (ties total : Nat) : String :=
  if tieRatioOf ties total > 30 then conclusion ++ highTieNoteText else conclusion

/-- The conclusion cascade of `show_ab_results_simplified`
(dashboard.py lines 216-228), with the code's branch order and its
strict comparisons kept verbatim. -/
def conclusionOf (model_a model_b : String) (lower_bound upper_bound : ℚ) : String :=
  if lower_bound > 55 then
    "**Conclusion:** " ++ model_a ++ " is better than " ++ model_b
  else if lower_bound > 45 ∧ upper_bound > 55 then
    "**Conclusion:** " ++ model_a ++ " is equivalent/better than " ++ model_b
  else if lower_bound > 45 ∧ upper_bound < 55 then
    "**Conclusion:** " ++ model_a ++ " is equivalent to " ++ model_b
  else if lower_bound < 45 ∧ upper_bound < 55 then
    "**Conclusion:** " ++ model_a ++ " is worse/equivalent to " ++ model_b
  else if upper_bound < 45 then
    "**Conclusion:** " ++ model_a ++ " is worse than " ++ model_b
  else
    "**Conclusion:** Results are inconclusive, more data needed"

/-- The verdict classification exactly as the specification words it
(spec.md section 4.4), written down for comparison with the code's
`conclusionOf`; the clauses are tried in the listed order. -/
def spec_verdict_classification (lower upper : ℚ) : String :=
  if lower > 55 then "A is better than B"
  else if 45 < lower ∧ lower ≤ 55 ∧ upper > 55 then "A is equivalent-or-better than B"
  else if 45 < lower ∧ lower ≤ 55 ∧ upper ≤ 55 then "A is equivalent to B"
  else if lower ≤ 45 ∧ upper ≤ 55 then "A is worse-or-equivalent to B"
  else if upper < 45 then "A is worse than B"
  else "inconclusive, more data needed"

/-- Result of the per-row statistics of `show_ab_results_simplified`
(dashboard.py lines 167-235): either the preference ratio with its
clamped Wilson-style bounds and the final conclusion markdown, or the
"Not enough data for statistical analysis" warning of line 235. -/
inductive AbOutcome where
  | stats (preference_ratio lower_bound upper_bound : ℚ) (conclusion : String)
  | notEnoughData
deriving DecidableEq, Repr

/-- The per-row analysis of `show_ab_results_simplified` (dashboard.py
lines 167-235).  `sqrtQ` abstracts `np.sqrt`, the single floating-point
operation of the block; every other step is exact rational arithmetic
mirroring lines 184-233.  When `a_wins + b_wins = 0` the code takes the
`else` branch of line 234 and none of the interval arithmetic runs. -/
def analyzeAbRow (sqrtQ : ℚ → ℚ) (model_a model_b : String)
    (a_wins b_wins ties total : Nat) : AbOutcome :=
  if 0 < a_wins + b_wins then
    let preference_ratio : ℚ := ((a_wins : ℚ) / ((a_wins + b_wins : Nat) : ℚ)) * 100
    let z : ℚ := 196 / 100
    let n : ℚ := ((a_wins + b_wins : Nat) : ℚ)
    let p : ℚ := (a_wins : ℚ) / n
    let confidence_interval : ℚ :=
      z * sqrtQ ((p * (1 - p) + z * z / (4 * n)) / n) / (1 + z * z / n) * 100
    let lower_bound := max 0 (preference_ratio - confidence_interval)
    let upper_bound := min 100 (preference_ratio + confidence_interval)
    AbOutcome.stats preference_ratio lower_bound upper_bound
      (appendTieNote (conclusionOf model_a model_b lower_bound upper_bound) ties total)
  else
    AbOutcome.notEnoughData

/-- An empty database (only the admin-less tables; SERIAL counters start
at 1), used for concrete evaluations. -/
def emptyDb : DbState :=
  ⟨[], [], [], 1, 1⟩

/-- A concrete state with two samples of distinct models, both with
`vote_count = 0`. -/
def twoSampleDb : DbState :=
  ⟨[⟨1, 1, "t", "a1", 0⟩, ⟨2, 2, "t", "a2", 0⟩], [], [], 1, 1⟩

/-- A concrete score dictionary whose naturalness score 6 lies outside
the closed interval [1,5]. -/
def badScores : MosScores :=
  ⟨some 6, some 3, some 3, some 3, none, some 3⟩

/-- Two concrete samples with equal text and distinct models. -/
def pairSamples : List SampleRow :=
  [⟨1, 1, "hello", "a1", 0⟩, ⟨2, 2, "hello", "a2", 0⟩]

/-- The two concrete models owning `pairSamples`. -/
def pairModels : List ModelRec :=
  [⟨1, "M1"⟩, ⟨2, "M2"⟩]

theorem insertLe_perm {α : Type} (le : α → α → Bool) (a : α) (l : List α) :
    (insertLe le a l).Perm (a :: l) := by
  induction l with
  | nil => exact List.Perm.refl _
  | cons b t ih =>
    unfold insertLe
    by_cases h : le a b
    · rw [if_pos h]
    · rw [if_neg h]
      exact (ih.cons b).trans (List.Perm.swap a b t)

theorem sortLe_perm {α : Type} (le : α → α → Bool) (l : List α) :
    (sortLe le l).Perm l := by
  induction l with
  | nil => exact List.Perm.refl _
  | cons a t ih =>
    show (insertLe le a (sortLe le t)).Perm (a :: t)
    exact (insertLe_perm le a (sortLe le t)).trans (ih.cons a)

theorem mem_sortLe {α : Type} (le : α → α → Bool) {x : α} {l : List α} :
    x ∈ sortLe le l ↔ x ∈ l :=
  (sortLe_perm le l).mem_iff

theorem model_of_mem_keep (ratings : List MosRatingRow) (cands : List SampleRow)
    (k m : Nat) {x : SampleRow}
    (hx : x ∈ (sortLe (mosLe ratings) (cands.filter (fun s => s.model_id == m))).take k) :
    x.model_id = m := by
  have h1 := List.take_subset _ _ hx
  rw [mem_sortLe] at h1
  have h2 := (List.mem_filter.mp h1).2
  simpa using h2

theorem countP_keep_flatMap_le (ratings : List MosRatingRow) (cands : List SampleRow)
    (max_per_model m : Nat) :
    ∀ ms : List Nat, ms.Nodup →
      List.countP (fun s => s.model_id == m)
        (ms.flatMap (fun m' =>
          (sortLe (mosLe ratings) (cands.filter (fun s => s.model_id == m'))).take max_per_model)) ≤
      max_per_model := by
  intro ms
  induction ms with
  | nil =>
    intro _
    simp
  | cons a t ih =>
    intro hnd
    obtain ⟨ha, ht⟩ := List.nodup_cons.mp hnd
    rw [List.flatMap_cons, List.countP_append]
    by_cases hm : a = m
    · subst hm
      have hz : List.countP (fun s => s.model_id == a)
          (t.flatMap (fun m' =>
            (sortLe (mosLe ratings) (cands.filter (fun s => s.model_id == m'))).take max_per_model)) = 0 := by
        rw [List.countP_eq_zero]
        intro x hx
        rw [List.mem_flatMap] at hx
        obtain ⟨m', hm', hxm⟩ := hx
        have hxid := model_of_mem_keep ratings cands max_per_model m' hxm
        simp only [beq_iff_eq, hxid]
        exact fun hEq => ha (hEq ▸ hm')
      have h1 : List.countP (fun s => s.model_id == a)
          ((sortLe (mosLe ratings) (cands.filter (fun s => s.model_id == a))).take max_per_model) ≤
          ((sortLe (mosLe ratings) (cands.filter (fun s => s.model_id == a))).take max_per_model).length :=
        List.countP_le_length _
      have h2 : ((sortLe (mosLe ratings) (cands.filter (fun s => s.model_id == a))).take max_per_model).length ≤
          max_per_model := by
        rw [List.length_take]
        exact min_le_left _ _
      omega
    · have hz : List.countP (fun s => s.model_id == m)
          ((sortLe (mosLe ratings) (cands.filter (fun s => s.model_id == a))).take max_per_model) = 0 := by
        rw [List.countP_eq_zero]
        intro x hx
        have hxid := model_of_mem_keep ratings cands max_per_model a hx
        simp only [beq_iff_eq, hxid]
        exact fun hEq => hm hEq
      rw [hz, Nat.zero_add]
      exact ih ht

/-- C1: on A/B verdict submission the displayed choice is un-swapped
before persisting: with the swap flag set, displayed "A" is stored as
"B" and displayed "B" as "A"; without it, "A" stays "A" and "B" stays
"B"; the displayed tie option is stored as "tie" for either flag value;
and `handle_ab_rating_submission` persists exactly the mapped value. -/
theorem ab_verdict_unswapped_before_persist :
    (map_selection true "A" = "B" ∧ map_selection true "B" = "A" ∧
      map_selection false "A" = "A" ∧ map_selection false "B" = "B" ∧
      ∀ sw : Bool, map_selection sw "Both are equivalent" = "tie") ∧
    ∀ (st : DbState) (a b u : Nat) (sel reason : String) (sw : Bool) (now : Nat),
      ∃ row : AbTestRow,
        (handle_ab_rating_submission st a b u sel reason sw now).1.ab_tests =
          st.ab_tests ++ [row] ∧
        row.selected_sample = map_selection sw sel := by
  constructor
  · refine ⟨rfl, rfl, rfl, rfl, ?_⟩
    intro sw
    cases sw <;> rfl
  · intro st a b u sel reason sw now
    refine ⟨⟨st.next_test_id, a, b, u, map_selection sw sel, reason, 0, now⟩, ?_, rfl⟩
    have hck : ab_selected_check (map_selection sw sel) = true := by
      unfold map_selection
      cases sw <;> split_ifs <;> rfl
    simp [handle_ab_rating_submission, add_ab_rating, hck]

/-- C5: when a summary row has no decisive votes (`a_wins + b_wins = 0`)
the analysis short-circuits to the "not enough data" outcome; none of
the confidence-interval arithmetic runs (the result does not depend on
the square-root function), so no division by zero can occur. -/
theorem ab_summary_zero_decisive_short_circuit (sqrtQ : ℚ → ℚ) (model_a model_b : String)
    (a_wins b_wins ties total : Nat) (h : a_wins + b_wins = 0) :
    analyzeAbRow sqrtQ model_a model_b a_wins b_wins ties total = AbOutcome.notEnoughData := by
  unfold analyzeAbRow
  rw [if_neg (by omega)]

theorem ab_summary_zero_decisive_short_circuit_witness :
    analyzeAbRow id "X" "Y" 0 0 5 5 = AbOutcome.notEnoughData :=
  ab_summary_zero_decisive_short_circuit id "X" "Y" 0 0 5 5 rfl

/-- C9: for a summary row with `total > 0`, the high-tie-rate note is
appended to the conclusion exactly when `ties / total > 0.30`. -/
theorem high_tie_note_threshold (ties total : Nat) (conclusion : String) (h : 0 < total) :
    appendTieNote conclusion ties total ≠ conclusion ↔
      (ties : ℚ) / (total : ℚ) > 3 / 10 := by
  have hne : conclusion ++ highTieNoteText ≠ conclusion := by
    intro heq
    have hlen := congrArg String.length heq
    rw [String.length_append] at hlen
    have hpos : highTieNoteText.length ≠ 0 := by decide
    omega
  unfold appendTieNote tieRatioOf
  rw [if_pos h]
  by_cases hc : ((ties : ℚ) / (total : ℚ)) * 100 > 30
  · rw [if_pos hc]
    constructor
    · intro _
      linarith
    · intro _
      exact hne
  · rw [if_neg hc]
    constructor
    · intro hfalse
      exact absurd rfl hfalse
    · intro hgt
      exact absurd (by linarith) hc

theorem high_tie_note_threshold_witness :
    appendTieNote "**Conclusion:** c" 40 100 ≠ "**Conclusion:** c" :=
  (high_tie_note_threshold 40 100 "**Conclusion:** c" (by norm_num)).mpr (by norm_num)

/-- C10: every persisted A/B comparison row records `test_duration = 0`,
whatever the rater actually took: the INSERT of `add_ab_rating` passes
the literal `0` for that column. -/
theorem ab_rating_duration_zero (st : DbState) (a b u : Nat) (sel reason : String) (now : Nat)
    (hsel : ab_selected_check sel = true) :
    ∃ row : AbTestRow,
      (add_ab_rating st a b u sel reason now).1.ab_tests = st.ab_tests ++ [row] ∧
      row.test_duration = 0 ∧ row.sample_a_id = a ∧ row.sample_b_id = b ∧
      row.selected_sample = sel := by
  refine ⟨⟨st.next_test_id, a, b, u, sel, reason, 0, now⟩, ?_, rfl, rfl, rfl, rfl⟩
  simp [add_ab_rating, hsel]

theorem ab_rating_duration_zero_witness :
    ∃ row : AbTestRow,
      (add_ab_rating emptyDb 1 2 7 "A" "good" 3).1.ab_tests = emptyDb.ab_tests ++ [row] ∧
      row.test_duration = 0 ∧ row.sample_a_id = 1 ∧ row.sample_b_id = 2 ∧
      row.selected_sample = "A" :=
  ab_rating_duration_zero emptyDb 1 2 7 "A" "good" 3 (by decide)

/-- C7 counterexample: `add_ab_rating` does not increment the samples'
`vote_count` counters.  On a state with two samples both at
`vote_count = 0`, recording verdict "A" on the pair leaves the `samples`
table unchanged: no sample ends up with `vote_count = 1`. -/
theorem add_ab_rating_no_vote_increment_cex :
    (add_ab_rating twoSampleDb 1 2 7 "A" "r" 0).1.samples = twoSampleDb.samples ∧
    ¬ ∃ s ∈ (add_ab_rating twoSampleDb 1 2 7 "A" "r" 0).1.samples,
        s.sample_id = 1 ∧ s.vote_count = 1 := by
  decide

/-- C7 amended: `add_ab_rating` inserts exactly one `ab_tests` row and
changes nothing else: the `samples` table — vote counters included — and
the `mos_ratings` table are untouched. -/
theorem add_ab_rating_frame_condition (st : DbState) (a b u : Nat) (sel reason : String)
    (now : Nat) (hsel : ab_selected_check sel = true) :
    (add_ab_rating st a b u sel reason now).1.samples = st.samples ∧
    (add_ab_rating st a b u sel reason now).1.mos_ratings = st.mos_ratings ∧
    (add_ab_rating st a b u sel reason now).1.ab_tests =
      st.ab_tests ++ [⟨st.next_test_id, a, b, u, sel, reason, 0, now⟩] := by
  simp [add_ab_rating, hsel]

theorem add_ab_rating_frame_condition_witness :
    (add_ab_rating twoSampleDb 1 2 7 "A" "r" 0).1.samples = twoSampleDb.samples ∧
    (add_ab_rating twoSampleDb 1 2 7 "A" "r" 0).1.mos_ratings = twoSampleDb.mos_ratings ∧
    (add_ab_rating twoSampleDb 1 2 7 "A" "r" 0).1.ab_tests =
      twoSampleDb.ab_tests ++ [⟨twoSampleDb.next_test_id, 1, 2, 7, "A", "r", 0, 0⟩] :=
  add_ab_rating_frame_condition twoSampleDb 1 2 7 "A" "r" 0 (by decide)

/-- C8 counterexample: submitting a MOS rating whose naturalness score 6
lies outside [1,5] is not rejected by the recorder: `add_mos_rating`
performs no validation, the INSERT is attempted and aborted by the
schema CHECK constraint, so what reaches the caller is the propagated
database error, never the specified "validation failed" outcome (no row
is persisted either way). -/
theorem add_mos_rating_no_local_validation_cex :
    (add_mos_rating emptyDb 1 1 badScores 0).2 = InsertResult.checkViolation ∧
    (add_mos_rating emptyDb 1 1 badScores 0).2 ≠ InsertResult.validationFailed ∧
    (add_mos_rating emptyDb 1 1 badScores 0).1 = emptyDb := by
  decide

/-- C8 amended: a MOS submission with any score outside [1,5] persists
no rating row, but not through local validation: the recorder always
attempts the INSERT and the storage layer's CHECK constraint aborts it,
surfacing a database error rather than a "validation failed" result. -/
theorem add_mos_rating_out_of_range_check (st : DbState) (sid uid : Nat) (r : MosScores)
    (now : Nat) (v : ℚ) (hv : v < 1 ∨ 5 < v)
    (hf : r.naturalness = some v ∨ r.intelligibility = some v ∨ r.pronunciation = some v ∨
          r.prosody = some v ∨ r.speaker_similarity = some v ∨ r.overall_rating = some v) :
    add_mos_rating st sid uid r now = (st, InsertResult.checkViolation) := by
  have hbad : score_ok (some v) = false := by
    simp only [score_ok, decide_eq_false_iff_not]
    rintro ⟨h1, h2⟩
    rcases hv with h | h <;> linarith
  have hck : mos_row_check r = false := by
    rcases hf with h | h | h | h | h | h <;> simp [mos_row_check, h, hbad]
  simp [add_mos_rating, hck]

theorem add_mos_rating_out_of_range_check_witness :
    add_mos_rating emptyDb 1 1 badScores 0 = (emptyDb, InsertResult.checkViolation) :=
  add_mos_rating_out_of_range_check emptyDb 1 1 badScores 0 6 (Or.inr (by norm_num))
    (Or.inl rfl)

/-- C2 counterexample: at the clamped bounds `(lower, upper) = (50, 55)`
— which satisfy `lower ∈ (45, 55]` and `upper ≤ 55` — the claimed
classification is "A is equivalent to B", but the code's cascade uses
the strict comparison `upper_bound < 55` and falls through to the
inconclusive branch. -/
theorem conclusion_boundary_cex :
    spec_verdict_classification 50 55 = "A is equivalent to B" ∧
    conclusionOf "A" "B" 50 55 =
      "**Conclusion:** Results are inconclusive, more data needed" ∧
    ("**Conclusion:** Results are inconclusive, more data needed" : String) ≠
      "**Conclusion:** " ++ "A" ++ " is equivalent to " ++ "B" := by
  refine ⟨?_, ?_, by decide⟩
  · unfold spec_verdict_classification
    rw [if_neg (by norm_num), if_neg (by norm_num), if_pos (by norm_num)]
  · unfold conclusionOf
    rw [if_neg (by norm_num), if_neg (by norm_num), if_neg (by norm_num),
      if_neg (by norm_num), if_neg (by norm_num)]

/-- C2 amended: the code's verdict classification for clamped bounds
with `lower ≤ upper`: better when `lower > 55`; equivalent-or-better
when `lower ∈ (45, 55]` and `upper > 55`; equivalent when
`lower ∈ (45, 55]` and `upper < 55` (strictly); worse-or-equivalent when
`lower < 45` and `upper < 55`, which in particular swallows every case
with `upper < 45`, so the "worse" branch is unreachable; the boundary
cases `lower = 45` and `upper = 55` (with `lower ≤ 55`) are
inconclusive. -/
theorem conclusion_classification_regions (model_a model_b : String) (lower upper : ℚ)
    (h : lower ≤ upper) :
    (55 < lower → conclusionOf model_a model_b lower upper =
        "**Conclusion:** " ++ model_a ++ " is better than " ++ model_b) ∧
    (45 < lower → lower ≤ 55 → 55 < upper → conclusionOf model_a model_b lower upper =
        "**Conclusion:** " ++ model_a ++ " is equivalent/better than " ++ model_b) ∧
    (45 < lower → lower ≤ 55 → upper < 55 → conclusionOf model_a model_b lower upper =
        "**Conclusion:** " ++ model_a ++ " is equivalent to " ++ model_b) ∧
    (lower < 45 → upper < 55 → conclusionOf model_a model_b lower upper =
        "**Conclusion:** " ++ model_a ++ " is worse/equivalent to " ++ model_b) ∧
    (upper < 45 → conclusionOf model_a model_b lower upper =
        "**Conclusion:** " ++ model_a ++ " is worse/equivalent to " ++ model_b) ∧
    (lower = 45 → conclusionOf model_a model_b lower upper =
        "**Conclusion:** Results are inconclusive, more data needed") ∧
    (upper = 55 → lower ≤ 55 → conclusionOf model_a model_b lower upper =
        "**Conclusion:** Results are inconclusive, more data needed") := by
  refine ⟨fun h1 => ?_, fun h1 h2 h3 => ?_, fun h1 h2 h3 => ?_, fun h1 h2 => ?_,
    fun h1 => ?_, fun h1 => ?_, fun h1 h2 => ?_⟩
  · unfold conclusionOf
    rw [if_pos h1]
  · unfold conclusionOf
    rw [if_neg (not_lt.mpr h2), if_pos ⟨h1, h3⟩]
  · unfold conclusionOf
    rw [if_neg (not_lt.mpr h2), if_neg (fun hx => absurd hx.2 (not_lt.mpr (le_of_lt h3))),
      if_pos ⟨h1, h3⟩]
  · unfold conclusionOf
    rw [if_neg (by intro hx; linarith), if_neg (by rintro ⟨hx, -⟩; linarith),
      if_neg (by rintro ⟨hx, -⟩; linarith), if_pos ⟨h1, h2⟩]
  · have h2 : upper < 55 := by linarith
    have h3 : lower < 45 := by linarith
    unfold conclusionOf
    rw [if_neg (by intro hx; linarith), if_neg (by rintro ⟨hx, -⟩; linarith),
      if_neg (by rintro ⟨hx, -⟩; linarith), if_pos ⟨h3, h2⟩]
  · subst h1
    unfold conclusionOf
    rw [if_neg (by norm_num), if_neg (by rintro ⟨hx, -⟩; norm_num at hx),
      if_neg (by rintro ⟨hx, -⟩; norm_num at hx), if_neg (by rintro ⟨hx, -⟩; norm_num at hx),
      if_neg (by intro hx; linarith)]
  · subst h1
    unfold conclusionOf
    rw [if_neg (not_lt.mpr h2), if_neg (by rintro ⟨-, hx⟩; norm_num at hx),
      if_neg (by rintro ⟨-, hx⟩; norm_num at hx), if_neg (by rintro ⟨-, hx⟩; norm_num at hx),
      if_neg (by norm_num)]

theorem conclusion_classification_regions_witness :
    conclusionOf "X" "Y" 60 70 = "**Conclusion:** " ++ "X" ++ " is better than " ++ "Y" :=
  (conclusion_classification_regions "X" "Y" 60 70 (by norm_num)).1 (by norm_num)

/-- C3: every MOS batch returned by `get_multiple_random_samples`
contains no excluded sample id, contains at most `max_per_model` samples
of any one model, and has length at most `count`. -/
theorem mos_batch_selection_spec (samples : List SampleRow) (ratings : List MosRatingRow)
    (count max_per_model : Nat) (exclude_ids : List Nat) :
    (∀ s ∈ get_multiple_random_samples samples ratings count max_per_model exclude_ids,
        s.sample_id ∉ exclude_ids) ∧
    (∀ m : Nat,
        List.countP (fun s => s.model_id == m)
          (get_multiple_random_samples samples ratings count max_per_model exclude_ids) ≤
          max_per_model) ∧
    (get_multiple_random_samples samples ratings count max_per_model exclude_ids).length ≤
      count := by
  refine ⟨?_, ?_, ?_⟩
  · intro s hs
    unfold get_multiple_random_samples at hs
    have h1 := List.take_subset _ _ hs
    rw [mem_sortLe] at h1
    simp only [mosKept] at h1
    rw [List.mem_flatMap] at h1
    obtain ⟨m', _, hsm⟩ := h1
    have h2 := List.take_subset _ _ hsm
    rw [mem_sortLe] at h2
    have h3 := (List.mem_filter.mp h2).1
    unfold mosCandidates at h3
    have h4 := (List.mem_filter.mp h3).2
    simpa using h4
  · intro m
    unfold get_multiple_random_samples
    have hsub :
        List.countP (fun s => s.model_id == m)
          ((sortLe (mosLe ratings) (mosKept samples ratings max_per_model exclude_ids)).take count) ≤
        List.countP (fun s => s.model_id == m)
          (sortLe (mosLe ratings) (mosKept samples ratings max_per_model exclude_ids)) :=
      List.Sublist.countP_le _ (List.take_sublist _ _)
    have hperm :
        List.countP (fun s => s.model_id == m)
          (sortLe (mosLe ratings) (mosKept samples ratings max_per_model exclude_ids)) =
        List.countP (fun s => s.model_id == m)
          (mosKept samples ratings max_per_model exclude_ids) :=
      List.Perm.countP_eq _ (sortLe_perm _ _)
    have hkept :
        List.countP (fun s => s.model_id == m)
          (mosKept samples ratings max_per_model exclude_ids) ≤ max_per_model := by
      simp only [mosKept]
      exact countP_keep_flatMap_le ratings (mosCandidates samples exclude_ids) max_per_model m
        _ (List.nodup_dedup _)
    omega
  · unfold get_multiple_random_samples
    rw [List.length_take]
    exact min_le_left _ _

theorem mos_batch_selection_spec_witness :
    (⟨1, 1, "t", "a", 0⟩ : SampleRow).sample_id ∉ ([2] : List Nat) :=
  (mos_batch_selection_spec [⟨1, 1, "t", "a", 0⟩, ⟨2, 1, "u", "b", 0⟩] [] 5 5 [2]).1
    ⟨1, 1, "t", "a", 0⟩ (by decide)

/-- C4: a pair listed in `exclude_pairs` is never returned by
`get_ab_test_sample_pairs`, in either orientation: the exclusion filter
of database.py lines 130-137 checks both `(a, b)` and `(b, a)`. -/
theorem ab_batch_symmetric_dedup (fetched : List PairRow) (count : Nat)
    (exclude_pairs : List (Nat × Nat)) (a b : Nat) (hab : (a, b) ∈ exclude_pairs) :
    ∀ p ∈ get_ab_test_sample_pairs fetched count exclude_pairs,
      ¬ (p.sample_a_id = a ∧ p.sample_b_id = b) ∧
      ¬ (p.sample_a_id = b ∧ p.sample_b_id = a) := by
  intro p hp
  unfold get_ab_test_sample_pairs at hp
  have h1 := List.take_subset _ _ hp
  have h2 := (List.mem_filter.mp h1).2
  have h3 : ¬ ((decide ((p.sample_a_id, p.sample_b_id) = (a, b)) ||
      decide ((p.sample_b_id, p.sample_a_id) = (a, b))) = true) := by
    intro hcontra
    have hexc : pair_excluded p exclude_pairs = true := by
      unfold pair_excluded
      rw [List.any_eq_true]
      exact ⟨(a, b), hab, hcontra⟩
    rw [hexc] at h2
    simp at h2
  simp only [Bool.or_eq_true, decide_eq_true_eq, Prod.mk.injEq, not_or] at h3
  exact ⟨h3.1, fun hc => h3.2 ⟨hc.2, hc.1⟩⟩

theorem ab_batch_symmetric_dedup_witness :
    ¬ ((⟨3, 4, "t", "x", "y", "M", "N"⟩ : PairRow).sample_a_id = 1 ∧
        (⟨3, 4, "t", "x", "y", "M", "N"⟩ : PairRow).sample_b_id = 2) ∧
    ¬ ((⟨3, 4, "t", "x", "y", "M", "N"⟩ : PairRow).sample_a_id = 2 ∧
        (⟨3, 4, "t", "x", "y", "M", "N"⟩ : PairRow).sample_b_id = 1) :=
  ab_batch_symmetric_dedup [⟨3, 4, "t", "x", "y", "M", "N"⟩] 1 [(1, 2)] 1 2 (by decide)
    ⟨3, 4, "t", "x", "y", "M", "N"⟩ (by decide)

/-- C6: when the fetched rows are (a permutation of) the pair query's
candidate universe, every returned pair joins two stored samples with
identical text and distinct models, and when a model A name was
requested, the A-side sample belongs to a model of that name. -/
theorem ab_batch_pairs_valid (samples : List SampleRow) (models : List ModelRec)
    (model_a : Option String) (fetched : List PairRow) (count : Nat)
    (exclude_pairs : List (Nat × Nat))
    (hfetch : fetched.Perm (abPairUniverse samples models model_a)) :
    ∀ p ∈ get_ab_test_sample_pairs fetched count exclude_pairs,
      ∃ s1 ∈ samples, ∃ s2 ∈ samples,
        s1.sample_id = p.sample_a_id ∧ s2.sample_id = p.sample_b_id ∧
        s1.text = s2.text ∧ s1.model_id ≠ s2.model_id ∧
        ∀ nm, model_a = some nm →
          ∃ m1 ∈ models, m1.model_id = s1.model_id ∧ m1.model_name = nm := by
  intro p hp
  unfold get_ab_test_sample_pairs at hp
  have h1 := List.take_subset _ _ hp
  have h2 := (List.mem_filter.mp h1).1
  have h3 := List.take_subset _ _ h2
  rw [hfetch.mem_iff] at h3
  unfold abPairUniverse at h3
  rw [List.mem_flatMap] at h3
  obtain ⟨s1, hs1, h4⟩ := h3
  rw [List.mem_flatMap] at h4
  obtain ⟨s2, hs2, h5⟩ := h4
  rw [List.mem_flatMap] at h5
  obtain ⟨m1, hm1, h6⟩ := h5
  rw [List.mem_filterMap] at h6
  obtain ⟨m2, _, h7⟩ := h6
  by_cases hc : s1.text = s2.text ∧ s1.sample_id ≠ s2.sample_id ∧
      s1.model_id = m1.model_id ∧ s2.model_id = m2.model_id ∧
      s1.model_id ≠ s2.model_id ∧ model_a_filter model_a m1 = true
  · rw [if_pos hc] at h7
    have hrow := Option.some.inj h7
    obtain ⟨htext, -, hm1id, -, hnem, hfil⟩ := hc
    refine ⟨s1, hs1, s2, hs2, ?_, ?_, htext, hnem, ?_⟩
    · rw [← hrow]
    · rw [← hrow]
    · intro nm hnm
      refine ⟨m1, hm1, hm1id.symm, ?_⟩
      rw [hnm] at hfil
      simpa [model_a_filter] using hfil
  · rw [if_neg hc] at h7
    exact absurd h7 (by simp)

theorem ab_batch_pairs_valid_witness :
    ∃ s1 ∈ pairSamples, ∃ s2 ∈ pairSamples,
      s1.sample_id = (⟨1, 2, "hello", "a1", "a2", "M1", "M2"⟩ : PairRow).sample_a_id ∧
      s2.sample_id = (⟨1, 2, "hello", "a1", "a2", "M1", "M2"⟩ : PairRow).sample_b_id ∧
      s1.text = s2.text ∧ s1.model_id ≠ s2.model_id ∧
      ∀ nm, (none : Option String) = some nm →
        ∃ m1 ∈ pairModels, m1.model_id = s1.model_id ∧ m1.model_name = nm :=
  ab_batch_pairs_valid pairSamples pairModels none
    (abPairUniverse pairSamples pairModels none) 5 [] (List.Perm.refl _)
    ⟨1, 2, "hello", "a1", "a2", "M1", "M2"⟩ (by decide)

end HumanEval
